import Mathlib

/-!
Shallow embedding of the Fluid-Simulation repository's numerical core
(src/FlowField.js: classes `FlowField` and `Particle`).  JavaScript numbers
are modelled as real numbers; the `Math.random()` samples consumed by the
constructors are passed in explicitly as parameters in `[0, 1)`; the
`Math.atan2` function is modelled by the argument of the complex number
`x + y*i`, which agrees with it on all non-signed-zero inputs.
-/

/-- A plain `{x, y}` vector object as used by `getVector` and
`Particle.update`. -/
structure Vec where
  x : ℝ
  y : ℝ

/-- `FlowField.fade`: `t * t * t * (t * (t * 6 - 15) + 10)`. -/
def fade (t : ℝ) : ℝ := t * t * t * (t * (t * 6 - 15) + 10)

/-- `FlowField.lerp`: `(1 - t) * a + t * b`. -/
def lerp (a b t : ℝ) : ℝ := (1 - t) * a + t * b

/-- `FlowField.grad(hash, x, y)`: selects `x`/`y` and their signs from the
low two bits of `hash`. -/
def grad (hash : ℕ) (x y : ℝ) : ℝ :=
  let h := hash &&& 3
  let u := if h < 2 then x else y
  let v := if h < 2 then y else x
  (if h &&& 1 = 0 then u else -u) + (if h &&& 2 = 0 then v else -v)

/-- `Math.atan2(y, x)` modelled as the argument of `x + y*i` (range
`(-π, π]`, `atan2 0 0 = 0`, matching JavaScript away from signed zeros). -/
noncomputable def atan2 (y x : ℝ) : ℝ := Complex.arg ⟨x, y⟩

/-- State of a `FlowField` instance.  `perm` is the 512-entry permutation
table (modelled as a total function; `noise2D` only reads indices below
512). -/
structure FlowField where
  width : ℝ
  height : ℝ
  mode : String
  scale : ℝ
  time : ℝ
  timeSpeed : ℝ
  mouseX : ℝ
  mouseY : ℝ
  mouseRadius : ℝ
  mouseForce : ℝ
  mousePressed : Bool
  perm : ℕ → ℕ

/-- The `FlowField` constructor.  `p` stands for the random 256-entry base
array built in `initPerlin` (entries `Math.floor(Math.random()*256)`); the
table is `perm[i] = p[i & 255]`.  (`gradP`/`grad3` are also built there but
are never read by `noise2D`, which hashes through `perm` alone.) -/
noncomputable def FlowField.init (width height : ℝ) (mode : String) (p : ℕ → ℕ) : FlowField :=
  { width := width
    height := height
    mode := mode
    scale := 100
    time := 0
    timeSpeed := 0.0003
    mouseX := width / 2
    mouseY := height / 2
    mouseRadius := 150
    mouseForce := 0.5
    mousePressed := false
    perm := fun i => p (i &&& 255) }

/-- `FlowField.noise2D(x, y)`.  `Math.floor(x) & 255` on the int32
representation equals `⌊x⌋ % 256` (a value in `[0, 256)`). -/
noncomputable def FlowField.noise2D (f : FlowField) (x y : ℝ) : ℝ :=
  let X : ℕ := (⌊x⌋ % 256).toNat
  let Y : ℕ := (⌊y⌋ % 256).toNat
  let xr := x - ⌊x⌋
  let yr := y - ⌊y⌋
  let u := fade xr
  let v := fade yr
  let A := f.perm X + Y
  let AA := f.perm A
  let AB := f.perm (A + 1)
  let B := f.perm (X + 1) + Y
  let BA := f.perm B
  let BB := f.perm (B + 1)
  lerp (lerp (grad (f.perm AA) xr yr) (grad (f.perm BA) (xr - 1) yr) u)
    (lerp (grad (f.perm AB) xr (yr - 1)) (grad (f.perm BB) (xr - 1) (yr - 1)) u) v

/-- `FlowField.getVector(x, y)`: mode-dependent angle, optional pointer
blend, then `(cos, sin)`. -/
noncomputable def FlowField.getVector (f : FlowField) (x y : ℝ) : Vec :=
  let angle :=
    if f.mode = "flow" then
      f.noise2D (x / f.scale) (y / f.scale + f.time) * Real.pi * 2
    else if f.mode = "galaxy" then
      let centerX := f.width / 2
      let centerY := f.height / 2
      let dx := x - centerX
      let dy := y - centerY
      let dist := Real.sqrt (dx * dx + dy * dy)
      let baseAngle := atan2 dy dx
      baseAngle + dist * 0.01 + f.noise2D (x / f.scale) (y / f.scale) * 0.5
    else if f.mode = "vortex" then
      let vortexX := f.width / 2
      let vortexY := f.height / 2
      let vdx := x - vortexX
      let vdy := y - vortexY
      let vdist := Real.sqrt (vdx * vdx + vdy * vdy)
      atan2 vdy vdx + Real.pi / 2 + vdist * 0.005 +
        f.noise2D (x / (f.scale * 0.5)) (y / (f.scale * 0.5) + f.time) * 1.5
    else if f.mode = "chaos" then
      f.noise2D (x / (f.scale * 0.3)) (y / (f.scale * 0.3) + f.time * 2) * Real.pi * 4 +
        f.noise2D (x / (f.scale * 0.5)) (y / (f.scale * 0.5) - f.time) * Real.pi * 2
    else 0
  let blended :=
    if f.mousePressed then
      let dx := x - f.mouseX
      let dy := y - f.mouseY
      let distToMouse := Real.sqrt (dx * dx + dy * dy)
      if distToMouse < f.mouseRadius then
        let influence := 1 - distToMouse / f.mouseRadius
        let mouseAngle := atan2 dy dx + Real.pi
        let mixFactor := influence * f.mouseForce
        angle * (1 - mixFactor) + mouseAngle * mixFactor
      else angle
    else angle
  ⟨Real.cos blended, Real.sin blended⟩

/-- `FlowField.update()`: `time += timeSpeed`. -/
def FlowField.update (f : FlowField) : FlowField :=
  { f with time := f.time + f.timeSpeed }

/-- `FlowField.setMousePosition(x, y)`. -/
def FlowField.setMousePosition (f : FlowField) (x y : ℝ) : FlowField :=
  { f with mouseX := x, mouseY := y }

/-- `FlowField.setMousePressed(pressed)`. -/
def FlowField.setMousePressed (f : FlowField) (pressed : Bool) : FlowField :=
  { f with mousePressed := pressed }

/-- `FlowField.setMode(mode)`: stores the mode and resets `timeSpeed` by
the switch (default branch: 0.0003). -/
def FlowField.setMode (f : FlowField) (mode : String) : FlowField :=
  { f with
    mode := mode
    timeSpeed :=
      if mode = "galaxy" then 0.0001
      else if mode = "vortex" then 0.0005
      else if mode = "chaos" then 0.001
      else 0.0003 }

/-- State of a `Particle` instance. -/
structure Particle where
  x : ℝ
  y : ℝ
  width : ℝ
  height : ℝ
  vx : ℝ
  vy : ℝ
  maxSpeed : ℝ
  hue : ℝ
  history : List (ℝ × ℝ)
  maxHistory : ℕ

/-- The `Particle` constructor.  The `x`, `y` parameters appear in the
source signature but are never read: the position is always drawn from
`Math.random()` (samples `r1`, `r2`, and `r3` for the initial hue), inset
by `padding = 50`. -/
def Particle.init (x y width height : ℝ) (r1 r2 r3 : ℝ) : Particle :=
  { x := 50 + r1 * (width - 50 * 2)
    y := 50 + r2 * (height - 50 * 2)
    width := width
    height := height
    vx := 0
    vy := 0
    maxSpeed := 2
    hue := r3 * 360
    history := []
    maxHistory := 20 }

/-- `Particle.reset(width, height)`. -/
def Particle.reset (p : Particle) (width height : ℝ) (r1 r2 : ℝ) : Particle :=
  { p with
    x := 50 + r1 * (width - 50 * 2)
    y := 50 + r2 * (height - 50 * 2)
    vx := 0
    vy := 0
    history := []
    width := width
    height := height }

/-- Velocity after `this.vx += force.x * 0.3` in `Particle.update`. -/
def Particle.forcedVx (p : Particle) (force : Vec) : ℝ := p.vx + force.x * 0.3

/-- Velocity after `this.vy += force.y * 0.3` in `Particle.update`. -/
def Particle.forcedVy (p : Particle) (force : Vec) : ℝ := p.vy + force.y * 0.3

/-- `currentSpeed = Math.sqrt(vx*vx + vy*vy)` (computed before the speed
cap and reused for the hue at the end of `Particle.update`). -/
noncomputable def Particle.currentSpeed (p : Particle) (force : Vec) : ℝ :=
  Real.sqrt (p.forcedVx force * p.forcedVx force + p.forcedVy force * p.forcedVy force)

/-- `vx` after the speed cap in `Particle.update`. -/
noncomputable def Particle.cappedVx (p : Particle) (force : Vec) : ℝ :=
  if p.currentSpeed force > p.maxSpeed then
    p.forcedVx force / p.currentSpeed force * p.maxSpeed
  else p.forcedVx force

/-- `vy` after the speed cap in `Particle.update`. -/
noncomputable def Particle.cappedVy (p : Particle) (force : Vec) : ℝ :=
  if p.currentSpeed force > p.maxSpeed then
    p.forcedVy force / p.currentSpeed force * p.maxSpeed
  else p.forcedVy force

/-- History after `push` of the current position and the conditional
`shift` in `Particle.update`. -/
def Particle.pushedHistory (p : Particle) : List (ℝ × ℝ) :=
  if (p.history ++ [(p.x, p.y)]).length > p.maxHistory then
    (p.history ++ [(p.x, p.y)]).tail
  else p.history ++ [(p.x, p.y)]

/-- Position after `this.x += this.vx * speed` in `Particle.update`. -/
noncomputable def Particle.movedX (p : Particle) (force : Vec) (speed : ℝ) : ℝ :=
  p.x + p.cappedVx force * speed

/-- Position after `this.y += this.vy * speed` in `Particle.update`. -/
noncomputable def Particle.movedY (p : Particle) (force : Vec) (speed : ℝ) : ℝ :=
  p.y + p.cappedVy force * speed

/-- The `bounced` flag of `Particle.update`: set when either axis hits the
2-unit margin. -/
def Particle.bounced (p : Particle) (force : Vec) (speed : ℝ) : Prop :=
  p.movedX force speed < 2 ∨ p.movedX force speed > p.width - 2 ∨
    p.movedY force speed < 2 ∨ p.movedY force speed > p.height - 2

open Classical in
/-- `Particle.update(force, speed)`: force integration, speed cap, history
push/shift, position integration, boundary clamp with damped inward
velocity (`Math.abs(v) * 0.7` at the low edge, `-Math.abs(v) * 0.7` at the
high edge), history clear on bounce, and hue from the pre-cap
`currentSpeed`. -/
noncomputable def Particle.update (p : Particle) (force : Vec) (speed : ℝ) : Particle :=
  { x :=
      if p.movedX force speed < 2 then 2
      else if p.movedX force speed > p.width - 2 then p.width - 2
      else p.movedX force speed
    y :=
      if p.movedY force speed < 2 then 2
      else if p.movedY force speed > p.height - 2 then p.height - 2
      else p.movedY force speed
    width := p.width
    height := p.height
    vx :=
      if p.movedX force speed < 2 then |p.cappedVx force| * 0.7
      else if p.movedX force speed > p.width - 2 then -|p.cappedVx force| * 0.7
      else p.cappedVx force
    vy :=
      if p.movedY force speed < 2 then |p.cappedVy force| * 0.7
      else if p.movedY force speed > p.height - 2 then -|p.cappedVy force| * 0.7
      else p.cappedVy force
    maxSpeed := p.maxSpeed
    hue := p.currentSpeed force / p.maxSpeed * 120
    history := if p.bounced force speed then [] else p.pushedHistory
    maxHistory := p.maxHistory }

/-- A sequence of `Particle.update` calls, one per `(force, speed)` pair. -/
noncomputable def Particle.runUpdates (p : Particle) (steps : List (Vec × ℝ)) : Particle :=
  steps.foldl (fun q st => q.update st.1 st.2) p

/-! ### Range of the noise function (claim C2 machinery)

The bound rests on three facts: the fade curve stays in `[0, 1]` on
`[0, 1]`; each corner gradient is `±dx ± dy`; and the mixed quantity
`(1 - fade t) * t + fade t * (1 - t)` never exceeds `1/2`. -/

lemma fade_nonneg (t : ℝ) (ht : 0 ≤ t) : 0 ≤ fade t := by
  have hinner : 0 ≤ t * (t * 6 - 15) + 10 := by nlinarith [sq_nonneg (4 * t - 5)]
  have hcube : 0 ≤ t * t * t := by positivity
  exact mul_nonneg hcube hinner

lemma fade_le_one (t : ℝ) (ht : 0 ≤ t) (ht1 : t ≤ 1) : fade t ≤ 1 := by
  have h1 : (0:ℝ) ≤ 1 - t := by linarith
  have h2 : (0:ℝ) ≤ 6 * t * t + 3 * t + 1 := by nlinarith [sq_nonneg t]
  unfold fade
  nlinarith [mul_nonneg (mul_nonneg (mul_nonneg h1 h1) h1) h2]

lemma mixed_fade_le_half (t : ℝ) (ht : 0 ≤ t) (ht1 : t ≤ 1) :
    (1 - fade t) * t + fade t * (1 - t) ≤ 1 / 2 := by
  have hq : (0:ℝ) ≤ 6 * (t * (t - 1)) ^ 2 + 2 * t * (1 - t) + 1 := by
    nlinarith [sq_nonneg (t * (t - 1)), mul_nonneg ht (by linarith : (0:ℝ) ≤ 1 - t)]
  have hid : 1 / 2 - ((1 - fade t) * t + fade t * (1 - t)) =
      2 * (t - 1 / 2) ^ 2 * (6 * (t * (t - 1)) ^ 2 + 2 * t * (1 - t) + 1) := by
    unfold fade; ring
  have hnn : (0:ℝ) ≤ 2 * (t - 1 / 2) ^ 2 * (6 * (t * (t - 1)) ^ 2 + 2 * t * (1 - t) + 1) :=
    mul_nonneg (by positivity) hq
  linarith

lemma grad_decomp (hash : ℕ) (x y : ℝ) :
    ∃ e d : ℝ, (e = 1 ∨ e = -1) ∧ (d = 1 ∨ d = -1) ∧ grad hash x y = e * x + d * y := by
  have hle : hash &&& 3 ≤ 3 := Nat.and_le_right
  have h4 : hash &&& 3 = 0 ∨ hash &&& 3 = 1 ∨ hash &&& 3 = 2 ∨ hash &&& 3 = 3 := by omega
  rcases h4 with h | h | h | h
  · refine ⟨1, 1, Or.inl rfl, Or.inl rfl, ?_⟩
    simp only [grad, h]
    norm_num
  · refine ⟨-1, 1, Or.inr rfl, Or.inl rfl, ?_⟩
    simp only [grad, h, show (1:ℕ) &&& 1 = 1 from rfl, show (1:ℕ) &&& 2 = 0 from rfl]
    norm_num
    try ring
  · refine ⟨-1, 1, Or.inr rfl, Or.inl rfl, ?_⟩
    simp only [grad, h, show (2:ℕ) &&& 1 = 0 from rfl, show (2:ℕ) &&& 2 = 2 from rfl]
    norm_num
    try ring
  · refine ⟨-1, -1, Or.inr rfl, Or.inr rfl, ?_⟩
    simp only [grad, h, show (3:ℕ) &&& 1 = 1 from rfl, show (3:ℕ) &&& 2 = 2 from rfl]
    norm_num
    try ring

lemma mix_bound (s c1 c2 M : ℝ) (hs0 : 0 ≤ s) (hs1 : s ≤ 1)
    (h1 : |c1| ≤ M) (h2 : |c2| ≤ M) : |(1 - s) * c1 + s * c2| ≤ M := by
  have h1s : (0:ℝ) ≤ 1 - s := by linarith
  calc |(1 - s) * c1 + s * c2| ≤ |(1 - s) * c1| + |s * c2| := abs_add _ _
    _ = (1 - s) * |c1| + s * |c2| := by
        rw [abs_mul, abs_mul, abs_of_nonneg h1s, abs_of_nonneg hs0]
    _ ≤ (1 - s) * M + s * M :=
        add_le_add (mul_le_mul_of_nonneg_left h1 h1s) (mul_le_mul_of_nonneg_left h2 hs0)
    _ = M := by ring

lemma segment_bound (u e1 e2 a : ℝ) (hu0 : 0 ≤ u) (hu1 : u ≤ 1)
    (ha0 : 0 ≤ a) (ha1 : a ≤ 1) (he1 : e1 = 1 ∨ e1 = -1) (he2 : e2 = 1 ∨ e2 = -1) :
    |(1 - u) * (e1 * a) + u * (e2 * (a - 1))| ≤ (1 - u) * a + u * (1 - a) := by
  have h1u : (0:ℝ) ≤ 1 - u := by linarith
  have habs : |a - 1| = 1 - a := by
    rw [abs_of_nonpos (by linarith : a - 1 ≤ 0)]; ring
  have hea : |e1 * a| = a := by
    rcases he1 with rfl | rfl
    · rw [one_mul, abs_of_nonneg ha0]
    · rw [neg_one_mul, abs_neg, abs_of_nonneg ha0]
  have heb : |e2 * (a - 1)| = 1 - a := by
    rcases he2 with rfl | rfl
    · rw [one_mul, habs]
    · rw [neg_one_mul, abs_neg, habs]
  have hterm1 : |(1 - u) * (e1 * a)| = (1 - u) * a := by
    rw [abs_mul, abs_of_nonneg h1u, hea]
  have hterm2 : |u * (e2 * (a - 1))| = u * (1 - a) := by
    rw [abs_mul, abs_of_nonneg hu0, heb]
  calc |(1 - u) * (e1 * a) + u * (e2 * (a - 1))|
      ≤ |(1 - u) * (e1 * a)| + |u * (e2 * (a - 1))| := abs_add _ _
    _ = (1 - u) * a + u * (1 - a) := by rw [hterm1, hterm2]

lemma noise_core_abs_le (h1 h2 h3 h4 : ℕ) (a b : ℝ)
    (ha0 : 0 ≤ a) (ha1 : a ≤ 1) (hb0 : 0 ≤ b) (hb1 : b ≤ 1) :
    |lerp (lerp (grad h1 a b) (grad h2 (a - 1) b) (fade a))
        (lerp (grad h3 a (b - 1)) (grad h4 (a - 1) (b - 1)) (fade a)) (fade b)| ≤ 1 := by
  obtain ⟨e1, d1, he1, hd1, hg1⟩ := grad_decomp h1 a b
  obtain ⟨e2, d2, he2, hd2, hg2⟩ := grad_decomp h2 (a - 1) b
  obtain ⟨e3, d3, he3, hd3, hg3⟩ := grad_decomp h3 a (b - 1)
  obtain ⟨e4, d4, he4, hd4, hg4⟩ := grad_decomp h4 (a - 1) (b - 1)
  have hu0 := fade_nonneg a ha0
  have hu1 := fade_le_one a ha0 ha1
  have hv0 := fade_nonneg b hb0
  have hv1 := fade_le_one b hb0 hb1
  have key : lerp (lerp (e1 * a + d1 * b) (e2 * (a - 1) + d2 * b) (fade a))
      (lerp (e3 * a + d3 * (b - 1)) (e4 * (a - 1) + d4 * (b - 1)) (fade a)) (fade b)
      = ((1 - fade b) * ((1 - fade a) * (e1 * a) + fade a * (e2 * (a - 1)))
          + fade b * ((1 - fade a) * (e3 * a) + fade a * (e4 * (a - 1))))
        + ((1 - fade a) * ((1 - fade b) * (d1 * b) + fade b * (d3 * (b - 1)))
          + fade a * ((1 - fade b) * (d2 * b) + fade b * (d4 * (b - 1)))) := by
    simp only [lerp]; ring
  rw [hg1, hg2, hg3, hg4, key]
  have hX : |(1 - fade b) * ((1 - fade a) * (e1 * a) + fade a * (e2 * (a - 1)))
      + fade b * ((1 - fade a) * (e3 * a) + fade a * (e4 * (a - 1)))|
      ≤ (1 - fade a) * a + fade a * (1 - a) :=
    mix_bound (fade b) _ _ _ hv0 hv1
      (segment_bound (fade a) e1 e2 a hu0 hu1 ha0 ha1 he1 he2)
      (segment_bound (fade a) e3 e4 a hu0 hu1 ha0 ha1 he3 he4)
  have hY : |(1 - fade a) * ((1 - fade b) * (d1 * b) + fade b * (d3 * (b - 1)))
      + fade a * ((1 - fade b) * (d2 * b) + fade b * (d4 * (b - 1)))|
      ≤ (1 - fade b) * b + fade b * (1 - b) :=
    mix_bound (fade a) _ _ _ hu0 hu1
      (segment_bound (fade b) d1 d3 b hv0 hv1 hb0 hb1 hd1 hd3)
      (segment_bound (fade b) d2 d4 b hv0 hv1 hb0 hb1 hd2 hd4)
  have hA := mixed_fade_le_half a ha0 ha1
  have hB := mixed_fade_le_half b hb0 hb1
  refine le_trans (abs_add _ _) ?_
  have h1 := abs_le.mp hX
  have h2 := abs_le.mp hY
  linarith [hX, hY]

lemma noise2D_abs_le (f : FlowField) (x y : ℝ) : |f.noise2D x y| ≤ 1 := by
  have hx0 : (0:ℝ) ≤ x - ⌊x⌋ := sub_nonneg.mpr (Int.floor_le x)
  have hx1 : x - ⌊x⌋ ≤ 1 := by
    have := Int.lt_floor_add_one x
    push_cast at this ⊢
    linarith
  have hy0 : (0:ℝ) ≤ y - ⌊y⌋ := sub_nonneg.mpr (Int.floor_le y)
  have hy1 : y - ⌊y⌋ ≤ 1 := by
    have := Int.lt_floor_add_one y
    push_cast at this ⊢
    linarith
  have h := noise_core_abs_le
    (f.perm (f.perm (f.perm ((⌊x⌋ % 256).toNat) + (⌊y⌋ % 256).toNat)))
    (f.perm (f.perm (f.perm ((⌊x⌋ % 256).toNat + 1) + (⌊y⌋ % 256).toNat)))
    (f.perm (f.perm (f.perm ((⌊x⌋ % 256).toNat) + (⌊y⌋ % 256).toNat + 1)))
    (f.perm (f.perm (f.perm ((⌊x⌋ % 256).toNat + 1) + (⌊y⌋ % 256).toNat + 1)))
    (x - ⌊x⌋) (y - ⌊y⌋) hx0 hx1 hy0 hy1
  simpa only [FlowField.noise2D] using h

/-! ### Projection lemmas for `Particle.update` -/

lemma update_x (p : Particle) (force : Vec) (speed : ℝ) :
    (p.update force speed).x =
      if p.movedX force speed < 2 then 2
      else if p.movedX force speed > p.width - 2 then p.width - 2
      else p.movedX force speed := rfl

lemma update_y (p : Particle) (force : Vec) (speed : ℝ) :
    (p.update force speed).y =
      if p.movedY force speed < 2 then 2
      else if p.movedY force speed > p.height - 2 then p.height - 2
      else p.movedY force speed := rfl

lemma update_vx (p : Particle) (force : Vec) (speed : ℝ) :
    (p.update force speed).vx =
      if p.movedX force speed < 2 then |p.cappedVx force| * 0.7
      else if p.movedX force speed > p.width - 2 then -|p.cappedVx force| * 0.7
      else p.cappedVx force := rfl

lemma update_vy (p : Particle) (force : Vec) (speed : ℝ) :
    (p.update force speed).vy =
      if p.movedY force speed < 2 then |p.cappedVy force| * 0.7
      else if p.movedY force speed > p.height - 2 then -|p.cappedVy force| * 0.7
      else p.cappedVy force := rfl

lemma update_width (p : Particle) (force : Vec) (speed : ℝ) :
    (p.update force speed).width = p.width := rfl

lemma update_height (p : Particle) (force : Vec) (speed : ℝ) :
    (p.update force speed).height = p.height := rfl

lemma update_maxSpeed (p : Particle) (force : Vec) (speed : ℝ) :
    (p.update force speed).maxSpeed = p.maxSpeed := rfl

lemma update_maxHistory (p : Particle) (force : Vec) (speed : ℝ) :
    (p.update force speed).maxHistory = p.maxHistory := rfl

lemma update_hue (p : Particle) (force : Vec) (speed : ℝ) :
    (p.update force speed).hue = p.currentSpeed force / p.maxSpeed * 120 := rfl

open Classical in
lemma update_history (p : Particle) (force : Vec) (speed : ℝ) :
    (p.update force speed).history =
      if p.bounced force speed then [] else p.pushedHistory := rfl

/-! ### Speed cap (claim C3 machinery) -/

lemma cappedSq_le (p : Particle) (force : Vec) (hm : p.maxSpeed = 2) :
    p.cappedVx force * p.cappedVx force + p.cappedVy force * p.cappedVy force ≤ 4 := by
  have hq : (0:ℝ) ≤ p.forcedVx force * p.forcedVx force +
      p.forcedVy force * p.forcedVy force :=
    add_nonneg (mul_self_nonneg _) (mul_self_nonneg _)
  have hs2 : p.currentSpeed force * p.currentSpeed force =
      p.forcedVx force * p.forcedVx force + p.forcedVy force * p.forcedVy force :=
    Real.mul_self_sqrt hq
  unfold Particle.cappedVx Particle.cappedVy
  split_ifs with h
  · rw [hm] at h
    have hspos : (0:ℝ) < p.currentSpeed force := lt_trans two_pos h
    have hne : p.currentSpeed force ≠ 0 := ne_of_gt hspos
    have hqpos : (0:ℝ) < p.forcedVx force * p.forcedVx force +
        p.forcedVy force * p.forcedVy force := by
      rw [← hs2]; exact mul_pos hspos hspos
    rw [hm]
    have hrw : p.forcedVx force / p.currentSpeed force * 2 *
          (p.forcedVx force / p.currentSpeed force * 2) +
        p.forcedVy force / p.currentSpeed force * 2 *
          (p.forcedVy force / p.currentSpeed force * 2) =
        4 * (p.forcedVx force * p.forcedVx force + p.forcedVy force * p.forcedVy force) /
          (p.currentSpeed force * p.currentSpeed force) := by
      field_simp
      ring
    rw [hrw, hs2, mul_div_assoc, div_self (ne_of_gt hqpos), mul_one]
  · push_neg at h
    rw [hm] at h
    have hs0 : (0:ℝ) ≤ p.currentSpeed force := Real.sqrt_nonneg _
    nlinarith [hs2]

lemma update_speed_le (p : Particle) (force : Vec) (speed : ℝ) (hm : p.maxSpeed = 2) :
    Real.sqrt ((p.update force speed).vx * (p.update force speed).vx +
      (p.update force speed).vy * (p.update force speed).vy) ≤ 2 := by
  have hcap := cappedSq_le p force hm
  have hvx2 : (p.update force speed).vx * (p.update force speed).vx ≤
      p.cappedVx force * p.cappedVx force := by
    rw [update_vx]
    split_ifs with h1 h2
    · nlinarith [abs_mul_abs_self (p.cappedVx force), mul_self_nonneg (p.cappedVx force)]
    · nlinarith [abs_mul_abs_self (p.cappedVx force), mul_self_nonneg (p.cappedVx force)]
    · exact le_refl _
  have hvy2 : (p.update force speed).vy * (p.update force speed).vy ≤
      p.cappedVy force * p.cappedVy force := by
    rw [update_vy]
    split_ifs with h1 h2
    · nlinarith [abs_mul_abs_self (p.cappedVy force), mul_self_nonneg (p.cappedVy force)]
    · nlinarith [abs_mul_abs_self (p.cappedVy force), mul_self_nonneg (p.cappedVy force)]
    · exact le_refl _
  have hsum : (p.update force speed).vx * (p.update force speed).vx +
      (p.update force speed).vy * (p.update force speed).vy ≤ 4 := by linarith
  calc Real.sqrt ((p.update force speed).vx * (p.update force speed).vx +
        (p.update force speed).vy * (p.update force speed).vy)
      ≤ Real.sqrt 4 := Real.sqrt_le_sqrt hsum
    _ = 2 := by
        rw [show (4:ℝ) = 2 ^ 2 by norm_num, Real.sqrt_sq (by norm_num : (0:ℝ) ≤ 2)]

/-! ### Boundary containment (claim C4 machinery) -/

lemma update_x_bounds (p : Particle) (force : Vec) (speed : ℝ) (hw : 4 ≤ p.width) :
    2 ≤ (p.update force speed).x ∧ (p.update force speed).x ≤ p.width - 2 := by
  rw [update_x]
  split_ifs with h1 h2
  · constructor <;> linarith
  · constructor <;> linarith
  · push_neg at h1 h2
    constructor <;> linarith

lemma update_y_bounds (p : Particle) (force : Vec) (speed : ℝ) (hh : 4 ≤ p.height) :
    2 ≤ (p.update force speed).y ∧ (p.update force speed).y ≤ p.height - 2 := by
  rw [update_y]
  split_ifs with h1 h2
  · constructor <;> linarith
  · constructor <;> linarith
  · push_neg at h1 h2
    constructor <;> linarith

/-! ### History invariant (claim C8 machinery) -/

lemma update_history_len (p : Particle) (force : Vec) (speed : ℝ)
    (hm : p.maxHistory = 20) (h0 : p.history.length ≤ 20) :
    (p.update force speed).history.length ≤ 20 := by
  rw [update_history]
  split_ifs with hb
  · simp
  · unfold Particle.pushedHistory
    rw [hm]
    split_ifs with hl
    · rw [List.length_tail]
      simp at hl ⊢
      omega
    · simp at hl ⊢
      omega

/-! ### Update sequences -/

lemma runUpdates_nil (p : Particle) : p.runUpdates [] = p := rfl

lemma runUpdates_cons (p : Particle) (st : Vec × ℝ) (steps : List (Vec × ℝ)) :
    p.runUpdates (st :: steps) = (p.update st.1 st.2).runUpdates steps := rfl

lemma runUpdates_maxSpeed (p : Particle) (steps : List (Vec × ℝ)) :
    (p.runUpdates steps).maxSpeed = p.maxSpeed := by
  induction steps generalizing p with
  | nil => rfl
  | cons st rest ih => rw [runUpdates_cons, ih, update_maxSpeed]

lemma runUpdates_width (p : Particle) (steps : List (Vec × ℝ)) :
    (p.runUpdates steps).width = p.width := by
  induction steps generalizing p with
  | nil => rfl
  | cons st rest ih => rw [runUpdates_cons, ih, update_width]

lemma runUpdates_height (p : Particle) (steps : List (Vec × ℝ)) :
    (p.runUpdates steps).height = p.height := by
  induction steps generalizing p with
  | nil => rfl
  | cons st rest ih => rw [runUpdates_cons, ih, update_height]

/-! ### Noise at integer lattice points (claim C10 machinery) -/

lemma noise2D_intCast (f : FlowField) (n m : ℤ) : f.noise2D (n : ℝ) (m : ℝ) = 0 := by
  simp only [FlowField.noise2D, Int.floor_intCast, sub_self]
  simp [fade, lerp, grad]

/-- `getVector` in flow mode with the pointer inactive, before any
simplification of the angle. -/
lemma getVector_flow (f : FlowField) (x y : ℝ) (hmode : f.mode = "flow")
    (hmp : f.mousePressed = false) :
    f.getVector x y =
      ⟨Real.cos (f.noise2D (x / f.scale) (y / f.scale + f.time) * Real.pi * 2),
        Real.sin (f.noise2D (x / f.scale) (y / f.scale + f.time) * Real.pi * 2)⟩ := by
  simp [FlowField.getVector, hmode, hmp]

/-! ### Concrete instances used by witnesses and counterexamples -/

/-- A fixed (degenerate) stand-in for the random permutation base array. -/
def permEx : ℕ → ℕ := fun _ => 0

/-- A freshly constructed 200x200 flow-mode field. -/
noncomputable def fEx : FlowField := FlowField.init 200 200 "flow" permEx

/-- The same field after `setMousePressed(true)` (pointer at the default
center (100, 100)). -/
noncomputable def fExPressed : FlowField :=
  (FlowField.init 200 200 "flow" permEx).setMousePressed true

/-- A concrete particle at (50, 50) on a 100x100 canvas, at rest. -/
def pEx : Particle :=
  { x := 50, y := 50, width := 100, height := 100, vx := 0, vy := 0,
    maxSpeed := 2, hue := 0, history := [], maxHistory := 20 }

/-- A force strong enough to exceed the speed cap in one step. -/
def fBig : Vec := ⟨10, 0⟩

lemma pEx_forcedVx : pEx.forcedVx fBig = 3 := by
  show (0 : ℝ) + 10 * 0.3 = 3
  norm_num

lemma pEx_forcedVy : pEx.forcedVy fBig = 0 := by
  show (0 : ℝ) + 0 * 0.3 = 0
  norm_num

lemma pEx_currentSpeed : pEx.currentSpeed fBig = 3 := by
  unfold Particle.currentSpeed
  rw [pEx_forcedVx, pEx_forcedVy]
  rw [show (3:ℝ) * 3 + 0 * 0 = 3 ^ 2 by norm_num]
  exact Real.sqrt_sq (by norm_num)

lemma pEx_cappedVx : pEx.cappedVx fBig = 2 := by
  unfold Particle.cappedVx
  rw [pEx_currentSpeed, pEx_forcedVx]
  rw [if_pos (by norm_num [show pEx.maxSpeed = 2 from rfl] : (3:ℝ) > pEx.maxSpeed)]
  rw [show pEx.maxSpeed = 2 from rfl]
  norm_num

lemma pEx_movedX : pEx.movedX fBig (-30) = -10 := by
  unfold Particle.movedX
  rw [pEx_cappedVx, show pEx.x = (50:ℝ) from rfl]
  norm_num

/-! ### Claim theorems -/

/-- C1: for every point (x, y), when the field's mode is "flow" and the
pointer interaction is inactive, `getVector(x, y)` returns exactly
`{x: cos(a), y: sin(a)}` where `a = noise2D(x/100, y/100 + time) * 2π`,
with 100 the constant noise scale and `time` the field's current time. -/
theorem C1_flow_getVector (f : FlowField) (x y : ℝ) (hmode : f.mode = "flow")
    (hmp : f.mousePressed = false) (hscale : f.scale = 100) :
    f.getVector x y =
      ⟨Real.cos (f.noise2D (x / 100) (y / 100 + f.time) * (2 * Real.pi)),
        Real.sin (f.noise2D (x / 100) (y / 100 + f.time) * (2 * Real.pi))⟩ := by
  rw [getVector_flow f x y hmode hmp, hscale]
  rw [show f.noise2D (x / 100) (y / 100 + f.time) * Real.pi * 2 =
    f.noise2D (x / 100) (y / 100 + f.time) * (2 * Real.pi) by ring]

theorem C1_flow_getVector_witness :
    fEx.mode = "flow" ∧ fEx.mousePressed = false ∧ fEx.scale = 100 ∧
    fEx.getVector 0 0 =
      ⟨Real.cos (fEx.noise2D (0 / 100) (0 / 100 + fEx.time) * (2 * Real.pi)),
        Real.sin (fEx.noise2D (0 / 100) (0 / 100 + fEx.time) * (2 * Real.pi))⟩ :=
  ⟨rfl, rfl, rfl, C1_flow_getVector fEx 0 0 rfl rfl rfl⟩

/-- C2: for every pair of real inputs (x, y), `noise2D(x, y)` returns a
value in the closed interval [-1, 1] (for any permutation table). -/
theorem C2_noise2D_range (f : FlowField) (x y : ℝ) :
    -1 ≤ f.noise2D x y ∧ f.noise2D x y ≤ 1 :=
  abs_le.mp (noise2D_abs_le f x y)

/-- C3: for every sequence of `Particle.update` calls with arbitrary force
vectors and speed multipliers, after each update the velocity magnitude
`sqrt(vx² + vy²)` is at most `maxSpeed = 2`; the bound holds exactly,
including through the boundary-bounce damping branch. -/
theorem C3_speed_cap (steps : List (Vec × ℝ)) (p : Particle) (hne : steps ≠ [])
    (hm : p.maxSpeed = 2) :
    Real.sqrt ((p.runUpdates steps).vx * (p.runUpdates steps).vx +
      (p.runUpdates steps).vy * (p.runUpdates steps).vy) ≤ 2 := by
  induction steps generalizing p with
  | nil => exact absurd rfl hne
  | cons st rest ih =>
    match rest with
    | [] =>
      rw [runUpdates_cons, runUpdates_nil]
      exact update_speed_le p st.1 st.2 hm
    | st2 :: rest2 =>
      rw [runUpdates_cons]
      exact ih (p.update st.1 st.2) (by simp) (by rw [update_maxSpeed, hm])

theorem C3_speed_cap_witness :
    ([((⟨0, 0⟩ : Vec), (1 : ℝ))] ≠ []) ∧ pEx.maxSpeed = 2 ∧
    Real.sqrt ((pEx.runUpdates [(⟨0, 0⟩, 1)]).vx * (pEx.runUpdates [(⟨0, 0⟩, 1)]).vx +
      (pEx.runUpdates [(⟨0, 0⟩, 1)]).vy * (pEx.runUpdates [(⟨0, 0⟩, 1)]).vy) ≤ 2 :=
  ⟨by simp, rfl, C3_speed_cap [(⟨0, 0⟩, 1)] pEx (by simp) rfl⟩

/-- C4: for every particle with stored canvas dimensions at least 4 (twice
the 2-unit margin) and every nonempty sequence of updates, the resulting
position satisfies `2 ≤ x ≤ width - 2` and `2 ≤ y ≤ height - 2`: the
particle never escapes the canvas. -/
theorem C4_containment (steps : List (Vec × ℝ)) (p : Particle) (hne : steps ≠ [])
    (hw : 4 ≤ p.width) (hh : 4 ≤ p.height) :
    (2 ≤ (p.runUpdates steps).x ∧ (p.runUpdates steps).x ≤ p.width - 2) ∧
    (2 ≤ (p.runUpdates steps).y ∧ (p.runUpdates steps).y ≤ p.height - 2) := by
  induction steps generalizing p with
  | nil => exact absurd rfl hne
  | cons st rest ih =>
    match rest with
    | [] =>
      rw [runUpdates_cons, runUpdates_nil]
      exact ⟨update_x_bounds p st.1 st.2 hw, update_y_bounds p st.1 st.2 hh⟩
    | st2 :: rest2 =>
      rw [runUpdates_cons]
      have hw2 : 4 ≤ (p.update st.1 st.2).width := by rw [update_width]; exact hw
      have hh2 : 4 ≤ (p.update st.1 st.2).height := by rw [update_height]; exact hh
      have h := ih (p.update st.1 st.2) (by simp) hw2 hh2
      rw [update_width, update_height] at h
      exact h

theorem C4_containment_witness :
    ([((⟨0, 0⟩ : Vec), (1 : ℝ))] ≠ []) ∧ (4 ≤ pEx.width) ∧ (4 ≤ pEx.height) ∧
    ((2 ≤ (pEx.runUpdates [(⟨0, 0⟩, 1)]).x ∧ (pEx.runUpdates [(⟨0, 0⟩, 1)]).x ≤ pEx.width - 2) ∧
      (2 ≤ (pEx.runUpdates [(⟨0, 0⟩, 1)]).y ∧ (pEx.runUpdates [(⟨0, 0⟩, 1)]).y ≤ pEx.height - 2)) :=
  ⟨by simp, by norm_num [show pEx.width = 100 from rfl], by norm_num [show pEx.height = 100 from rfl],
    C4_containment [(⟨0, 0⟩, 1)] pEx (by simp)
      (by norm_num [show pEx.width = 100 from rfl])
      (by norm_num [show pEx.height = 100 from rfl])⟩

/-- C8: for every sequence of updates, the history always has length at
most 20, and the history is empty immediately after any update in which a
boundary bounce occurred on either axis. -/
theorem C8_history (steps : List (Vec × ℝ)) (p : Particle) (hm : p.maxHistory = 20)
    (h0 : p.history.length ≤ 20) :
    (p.runUpdates steps).history.length ≤ 20 ∧
    ∀ (q : Particle) (force : Vec) (speed : ℝ), q.bounced force speed →
      (q.update force speed).history = [] := by
  constructor
  · induction steps generalizing p with
    | nil => exact h0
    | cons st rest ih =>
      rw [runUpdates_cons]
      exact ih (p.update st.1 st.2) (by rw [update_maxHistory, hm])
        (update_history_len p st.1 st.2 hm h0)
  · intro q force speed hb
    rw [update_history, if_pos hb]

theorem C8_history_witness :
    pEx.maxHistory = 20 ∧ pEx.history.length ≤ 20 ∧
    ((pEx.runUpdates [((⟨0, 0⟩ : Vec), (1 : ℝ))]).history.length ≤ 20 ∧
      ∀ (q : Particle) (force : Vec) (speed : ℝ), q.bounced force speed →
        (q.update force speed).history = []) :=
  ⟨rfl, by simp [show pEx.history = [] from rfl],
    C8_history [(⟨0, 0⟩, 1)] pEx rfl (by simp [show pEx.history = [] from rfl])⟩

/-- C5 counterexample: with force (10, 0) from rest, the pre-cap speed is
3, the capped speed is 2, yet the hue becomes `3/2 * 120 = 180`, not the
claimed `(capped/maxSpeed)*120 = 120`, and it leaves [0, 120]. -/
theorem C5_cex : (pEx.update fBig 1).hue = 180 ∧ ¬ (pEx.update fBig 1).hue ≤ 120 := by
  have hhue : (pEx.update fBig 1).hue = 180 := by
    rw [update_hue, pEx_currentSpeed, show pEx.maxSpeed = 2 from rfl]
    norm_num
  exact ⟨hhue, by rw [hhue]; norm_num⟩

/-- C5 (amended): after every `Particle.update` call the colorHint equals
`(pre-cap speed / maxSpeed) * 120`, where the pre-cap speed is the velocity
magnitude after the force is applied but before the speed cap;
consequently the colorHint is nonnegative but can exceed 120. -/
theorem C5_hue_precap (p : Particle) (force : Vec) (speed : ℝ) (hm : p.maxSpeed = 2) :
    (p.update force speed).hue =
      Real.sqrt ((p.vx + force.x * 0.3) * (p.vx + force.x * 0.3) +
        (p.vy + force.y * 0.3) * (p.vy + force.y * 0.3)) / 2 * 120 ∧
    0 ≤ (p.update force speed).hue := by
  constructor
  · rw [update_hue, hm]
    rfl
  · rw [update_hue, hm]
    have h0 : 0 ≤ p.currentSpeed force := Real.sqrt_nonneg _
    have h1 : 0 ≤ p.currentSpeed force / 2 := div_nonneg h0 (by norm_num)
    exact mul_nonneg h1 (by norm_num)

theorem C5_hue_precap_witness :
    pEx.maxSpeed = 2 ∧ 0 ≤ (pEx.update (⟨0, 0⟩ : Vec) 1).hue :=
  ⟨rfl, (C5_hue_precap pEx ⟨0, 0⟩ 1 rfl).2⟩

/-- C6 counterexample: a field freshly constructed in "galaxy" mode has
`timeSpeed = 0.0003`, not the claimed mode-dependent default 0.0001. -/
theorem C6_cex :
    (FlowField.init 100 100 "galaxy" permEx).timeSpeed = 0.0003 ∧
    (FlowField.init 100 100 "galaxy" permEx).timeSpeed ≠ 0.0001 := by
  refine ⟨rfl, ?_⟩
  show (0.0003 : ℝ) ≠ 0.0001
  norm_num

/-- C6 (amended): the constructor always sets the time-advance rate to
0.0003 regardless of the initial mode (the mode-dependent rates — flow
0.0003, galaxy 0.0001, vortex 0.0005, chaos 0.001 — are applied only by
`setMode`), and the pointer state defaults to inactive with radius 150 and
strength 0.5. -/
theorem C6_defaults (width height : ℝ) (mode : String) (p : ℕ → ℕ) (f : FlowField) :
    (FlowField.init width height mode p).timeSpeed = 0.0003 ∧
    (FlowField.init width height mode p).mousePressed = false ∧
    (FlowField.init width height mode p).mouseRadius = 150 ∧
    (FlowField.init width height mode p).mouseForce = 0.5 ∧
    (f.setMode "flow").timeSpeed = 0.0003 ∧
    (f.setMode "galaxy").timeSpeed = 0.0001 ∧
    (f.setMode "vortex").timeSpeed = 0.0005 ∧
    (f.setMode "chaos").timeSpeed = 0.001 := by
  refine ⟨rfl, rfl, rfl, rfl, ?_, ?_, ?_, ?_⟩ <;> simp [FlowField.setMode]

/-- C7 counterexample: constructing a particle with specified position
(10, 10) (and random samples pinned to 0) yields position (50, 50): the
`x`, `y` arguments are ignored. -/
theorem C7_cex :
    (Particle.init 10 10 800 600 0 0 0).x ≠ 10 ∧
    (Particle.init 10 10 800 600 0 0 0).y ≠ 10 := by
  have hx : (Particle.init 10 10 800 600 0 0 0).x = 50 := by
    show (50 : ℝ) + 0 * (800 - 50 * 2) = 50
    norm_num
  have hy : (Particle.init 10 10 800 600 0 0 0).y = 50 := by
    show (50 : ℝ) + 0 * (600 - 50 * 2) = 50
    norm_num
  exact ⟨by rw [hx]; norm_num, by rw [hy]; norm_num⟩

/-- C7 (amended): `Particle` construction takes (x, y, width, height) but
ignores x and y; the initial position is always the random draw
`padding + r * (dimension - 2 * padding)` with `padding = 50` (hence
uniform within the 50-unit inset when the samples are uniform on [0, 1));
velocity is zero, history is empty, and `maxSpeed = 2`. -/
theorem C7_construction (x y width height r1 r2 r3 : ℝ) :
    (Particle.init x y width height r1 r2 r3).x = 50 + r1 * (width - 50 * 2) ∧
    (Particle.init x y width height r1 r2 r3).y = 50 + r2 * (height - 50 * 2) ∧
    (Particle.init x y width height r1 r2 r3).vx = 0 ∧
    (Particle.init x y width height r1 r2 r3).vy = 0 ∧
    (Particle.init x y width height r1 r2 r3).history = [] ∧
    (Particle.init x y width height r1 r2 r3).maxSpeed = 2 :=
  ⟨rfl, rfl, rfl, rfl, rfl, rfl⟩

/-- C9 counterexample: with a negative speed multiplier the particle can
cross the low x-margin while its velocity component is positive (pointing
inward); the code then sets `vx = |vx| * 0.7 = 1.4`, which is NOT the
sign-negated `-(vx * 0.7) = -1.4` the claim requires. -/
theorem C9_cex :
    pEx.movedX fBig (-30) < 2 ∧ (pEx.update fBig (-30)).vx = 1.4 ∧
    (pEx.update fBig (-30)).vx ≠ -(pEx.cappedVx fBig) * 0.7 := by
  have hlt : pEx.movedX fBig (-30) < 2 := by rw [pEx_movedX]; norm_num
  have hvx : (pEx.update fBig (-30)).vx = 1.4 := by
    rw [update_vx, if_pos hlt, pEx_cappedVx]
    norm_num
  refine ⟨hlt, hvx, ?_⟩
  rw [hvx, pEx_cappedVx]
  norm_num

/-- C9 (amended): whenever the integrated position crosses the 2-unit
margin on an axis, the position is clamped to that margin and the
corresponding velocity component is set to 0.7 times its absolute value,
directed into the canvas (positive at the low edge, negative at the high
edge) — this equals a sign-negated damped reflection exactly when the
component pointed outward; the step is marked as bounced, which clears the
history; the x axis is checked before the y axis. -/
theorem C9_bounce (p : Particle) (force : Vec) (speed : ℝ) :
    (p.movedX force speed < 2 →
      (p.update force speed).x = 2 ∧
      (p.update force speed).vx = |p.cappedVx force| * 0.7) ∧
    (¬ p.movedX force speed < 2 → p.movedX force speed > p.width - 2 →
      (p.update force speed).x = p.width - 2 ∧
      (p.update force speed).vx = -|p.cappedVx force| * 0.7) ∧
    (p.movedY force speed < 2 →
      (p.update force speed).y = 2 ∧
      (p.update force speed).vy = |p.cappedVy force| * 0.7) ∧
    (¬ p.movedY force speed < 2 → p.movedY force speed > p.height - 2 →
      (p.update force speed).y = p.height - 2 ∧
      (p.update force speed).vy = -|p.cappedVy force| * 0.7) ∧
    (p.bounced force speed → (p.update force speed).history = []) := by
  refine ⟨?_, ?_, ?_, ?_, ?_⟩
  · intro h
    rw [update_x, update_vx, if_pos h, if_pos h]
    exact ⟨rfl, rfl⟩
  · intro h1 h2
    rw [update_x, update_vx, if_neg h1, if_neg h1, if_pos h2, if_pos h2]
    exact ⟨rfl, rfl⟩
  · intro h
    rw [update_y, update_vy, if_pos h, if_pos h]
    exact ⟨rfl, rfl⟩
  · intro h1 h2
    rw [update_y, update_vy, if_neg h1, if_neg h1, if_pos h2, if_pos h2]
    exact ⟨rfl, rfl⟩
  · intro hb
    rw [update_history, if_pos hb]

theorem C9_bounce_witness :
    pEx.movedX fBig (-30) < 2 ∧
    ((pEx.update fBig (-30)).x = 2 ∧
      (pEx.update fBig (-30)).vx = |pEx.cappedVx fBig| * 0.7) := by
  have hlt : pEx.movedX fBig (-30) < 2 := by rw [pEx_movedX]; norm_num
  exact ⟨hlt, (C9_bounce pEx fBig (-30)).1 hlt⟩

/-- C10 counterexample: with the pointer active at the canvas center
(100, 100) of the 200x200 flow field `fExPressed` (time 0, scale 100),
`getVector(100, 100)` — a point at integer multiples of the scale — blends
toward the repulsion angle and returns (cos(π/2), sin(π/2)) = (0, 1), not
the claimed (1, 0): the claim's corollary fails without the
pointer-inactive condition. -/
theorem C10_cex :
    fExPressed.mode = "flow" ∧ fExPressed.time = 0 ∧ fExPressed.scale = 100 ∧
    fExPressed.getVector 100 100 ≠ ⟨1, 0⟩ := by
  refine ⟨rfl, rfl, rfl, ?_⟩
  have hmode : fExPressed.mode = "flow" := rfl
  have hmp : fExPressed.mousePressed = true := rfl
  have hsc : fExPressed.scale = 100 := rfl
  have ht : fExPressed.time = 0 := rfl
  have hmx : fExPressed.mouseX = 100 := by show (200:ℝ) / 2 = 100; norm_num
  have hmy : fExPressed.mouseY = 100 := by show (200:ℝ) / 2 = 100; norm_num
  have hmr : fExPressed.mouseRadius = 150 := rfl
  have hmf : fExPressed.mouseForce = 0.5 := rfl
  have hone : ((100:ℝ) / 100) = ((1 : ℤ) : ℝ) := by norm_num
  have hnoise : fExPressed.noise2D ((100:ℝ) / 100) ((100:ℝ) / 100 + 0) = 0 := by
    rw [show ((100:ℝ) / 100 + 0) = ((1 : ℤ) : ℝ) by norm_num, hone]
    exact noise2D_intCast fExPressed 1 1
  have hz : (⟨(100:ℝ) - 100, (100:ℝ) - 100⟩ : ℂ) = 0 := by
    apply Complex.ext <;> norm_num
  have hatan : atan2 ((100:ℝ) - 100) ((100:ℝ) - 100) = 0 := by
    unfold atan2
    rw [hz, Complex.arg_zero]
  have hval : fExPressed.getVector 100 100 =
      ⟨Real.cos (Real.pi * 0.5), Real.sin (Real.pi * 0.5)⟩ := by
    simp only [FlowField.getVector, hmode, hmp, hsc, ht, hmx, hmy, hmr, hmf, hnoise, hatan]
    norm_num [Real.sqrt_zero]
  rw [hval]
  intro hcontra
  have hx := congrArg Vec.x hcontra
  simp only at hx
  rw [show Real.pi * 0.5 = Real.pi / 2 by ring, Real.cos_pi_div_two] at hx
  norm_num at hx

/-- C10 (amended): for every pair of integer inputs, `noise2D` returns
exactly 0 regardless of the permutation table (zero fractional offsets,
`fade 0 = 0`, and the selected corner gradient dot product
`grad(hash, 0, 0)` is 0); consequently, with the pointer interaction
inactive, `getVector` in flow mode with time 0 at coordinates that are
integer multiples of the 100-unit scale returns (1, 0). -/
theorem C10_integer_noise (f : FlowField) (n m : ℤ) (hmode : f.mode = "flow")
    (htime : f.time = 0) (hmp : f.mousePressed = false) (hscale : f.scale = 100) :
    f.noise2D (n : ℝ) (m : ℝ) = 0 ∧
    f.getVector (100 * (n : ℝ)) (100 * (m : ℝ)) = ⟨1, 0⟩ := by
  refine ⟨noise2D_intCast f n m, ?_⟩
  rw [getVector_flow f _ _ hmode hmp, hscale, htime]
  have hy : (100 * (m : ℝ)) / 100 + 0 = ((m : ℤ) : ℝ) := by
    rw [add_zero, mul_comm, mul_div_assoc, div_self (by norm_num : (100:ℝ) ≠ 0), mul_one]
  have hx : (100 * (n : ℝ)) / 100 = ((n : ℤ) : ℝ) := by
    rw [mul_comm, mul_div_assoc, div_self (by norm_num : (100:ℝ) ≠ 0), mul_one]
  rw [hy, hx, noise2D_intCast]
  simp

theorem C10_integer_noise_witness :
    fEx.mode = "flow" ∧ fEx.time = 0 ∧ fEx.mousePressed = false ∧ fEx.scale = 100 ∧
    (fEx.noise2D ((1 : ℤ) : ℝ) ((1 : ℤ) : ℝ) = 0 ∧
      fEx.getVector (100 * ((1 : ℤ) : ℝ)) (100 * ((1 : ℤ) : ℝ)) = ⟨1, 0⟩) :=
  ⟨rfl, rfl, rfl, rfl, C10_integer_noise fEx 1 1 rfl rfl rfl rfl⟩
